import Mathlib

/-!
Shallow embedding of `crates/meilisearch/src/routes/metrics.rs`, the handler of
the `GET /metrics` route (`get_metrics`), together with the contracts of the
external collaborators it calls (index scheduler, auth filter, search queue,
metric registry, text exporter), and proofs of the specification claims about
it.

The handler is straight-line code: a feature gate, an all-indexes access gate,
a sequence of fallible retrievals interleaved with gauge writes into a
process-wide registry, and a final text rendering of the registry.  We model
the registry as an association list from (metric name, label pairs) to a
rational value (`f64`/`i64` gauge values are idealised as `ℚ`), each `.set`
call as an update-or-append write, and the subsystem calls as fields of an
environment record, recording a trace of which calls were made.
-/

namespace MetricsRoute

/-- Task statuses, from `meilisearch_types::tasks::Status` (only the variants
matter for the route; the route mentions `Enqueued` and `Processing`). -/
inductive Status where
  | enqueued
  | processing
  | succeeded
  | failed
  | canceled
  deriving DecidableEq, Repr

/-- The task query descriptor, `index_scheduler::Query`.  The route only sets
`limit`, `reverse` and `statuses` and leaves every other field at its
`Query::default()` value, so only those three fields are modelled; a default
field stands for `..Query::default()`. -/
structure Query where
  limit : Option Nat := none
  reverse : Option Bool := none
  statuses : Option (List Status) := none
  deriving DecidableEq, Repr

/-- A scheduler task, as seen by the route: its enqueue timestamp (seconds
since epoch, idealised as `ℚ`) and its status. -/
structure Task where
  enqueued_at : ℚ
  status : Status
  deriving DecidableEq, Repr

/-- The caller's resolved auth filter.  The route only calls
`all_indexes_authorized()` on it, so that is the only observable modelled. -/
structure AuthFilter where
  all_indexes_authorized : Bool
  deriving DecidableEq, Repr

/-- Per-index statistics; the route reads `number_of_documents` (a `u64`). -/
structure IndexStats where
  number_of_documents : Nat
  deriving DecidableEq, Repr

/-- The snapshot returned by `create_all_stats`: database sizes (`u64`),
per-index stats keyed by index uid, and the optional last-update timestamp.
`last_update` is stored directly as the Unix timestamp in seconds that the
route extracts with `.unix_timestamp()`. -/
structure Stats where
  database_size : Nat
  used_database_size : Nat
  indexes : List (String × IndexStats)
  last_update : Option Int
  deriving DecidableEq, Repr

/-- Rust's `as i64` cast applied to an unsigned 64-bit quantity: wraps values
at `2 ^ 63`. -/
def asI64 (n : Nat) : Int :=
  (((n + 2 ^ 63) % 2 ^ 64 : Nat) : Int) - 2 ^ 63

/-- A registry key: the metric name together with its (label name, label
value) pairs, mirroring how the prometheus registry keys a gauge sample. -/
abbrev MetricKey := String × List (String × String)

/-- The metric registry: current gauge value per key.  Plain association
list; `regSet` keeps keys unique when starting from a key-unique list. -/
abbrev Registry := List (MetricKey × ℚ)

/-- Read the current value of a key, `none` when the key was never written. -/
def regGet (reg : Registry) (k : MetricKey) : Option ℚ :=
  match reg with
  | [] => none
  | e :: rest => if e.1 = k then some e.2 else regGet rest k

/-- One gauge `.set` call: overwrite the value when the key exists, append the
sample otherwise.  No operation ever removes a key. -/
def regSet (reg : Registry) (k : MetricKey) (v : ℚ) : Registry :=
  match reg with
  | [] => [(k, v)]
  | e :: rest => if e.1 = k then (k, v) :: rest else e :: regSet rest k v

/-- Perform a sequence of gauge writes, in order. -/
def applyWrites (reg : Registry) (ws : List (MetricKey × ℚ)) : Registry :=
  ws.foldl (fun r w => regSet r w.1 w.2) reg

/-- Key of `database_size_bytes` (gauge, no labels). -/
def dbSizeKey : MetricKey := ("database_size_bytes", [])

/-- Key of `used_database_size_bytes` (gauge, no labels). -/
def usedDbSizeKey : MetricKey := ("used_database_size_bytes", [])

/-- Key of `index_count` (gauge, no labels). -/
def indexCountKey : MetricKey := ("index_count", [])

/-- Key of `search_queue_size` (gauge, no labels). -/
def searchQueueSizeKey : MetricKey := ("search_queue_size", [])

/-- Key of `searches_running` (gauge, no labels). -/
def searchesRunningKey : MetricKey := ("searches_running", [])

/-- Key of `searches_waiting_to_be_processed` (gauge, no labels). -/
def searchesWaitingKey : MetricKey := ("searches_waiting_to_be_processed", [])

/-- Key of the `index_docs_count` series labelled with one index uid. -/
def indexDocsCountKey (index : String) : MetricKey :=
  ("index_docs_count", [("index", index)])

/-- Key of the `nb_tasks` series labelled with a task kind and a status. -/
def nbTasksKey (kind sts : String) : MetricKey :=
  ("nb_tasks", [("kind", kind), ("status", sts)])

/-- Key of `last_update` (gauge, no labels). -/
def lastUpdateKey : MetricKey := ("last_update", [])

/-- Key of `is_indexing` (gauge, no labels). -/
def isIndexingKey : MetricKey := ("is_indexing", [])

/-- Key of `task_queue_latency_seconds` (gauge, no labels). -/
def taskQueueLatencyKey : MetricKey := ("task_queue_latency_seconds", [])

/-- The environment of one request: the outcome each external collaborator
would produce if called.  Fallible collaborators are `Except`, carrying the
origin component's error message. -/
structure Env where
  /-- Outcome of `index_scheduler.features().check_metrics()`: `true` when the
  metrics feature is enabled for this deployment. -/
  metrics_feature_enabled : Bool
  /-- The caller's auth filter, `index_scheduler.filters()`. -/
  filters : AuthFilter
  /-- Base message of `ResponseError::from(AuthenticationError::InvalidToken)`
  before the route appends its guidance text. -/
  invalid_token_message : String
  /-- Outcome of `create_all_stats(...)`. -/
  create_all_stats : Except String Stats
  /-- `search_queue.capacity()` (usize). -/
  capacity : Nat
  /-- `search_queue.searches_running()` (usize). -/
  searches_running : Nat
  /-- `search_queue.searches_waiting()` (usize). -/
  searches_waiting : Nat
  /-- Outcome of `index_scheduler.get_stats()`: per task kind, the per-status
  counts (`u64`). -/
  get_stats : Except String (List (String × List (String × Nat)))
  /-- Outcome of `index_scheduler.is_task_processing()`. -/
  is_task_processing : Except String Bool
  /-- Outcome of `index_scheduler.get_tasks_from_authorized_indexes(q, f)`,
  as a function of the query and the filter actually passed. -/
  get_tasks_from_authorized_indexes : Query → AuthFilter → Except String (List Task)
  /-- `OffsetDateTime::now_utc()`, seconds since epoch. -/
  now : ℚ

/-- One external call made by the handler, for the call trace. -/
inductive Call where
  | check_metrics
  | filters
  | create_all_stats
  | capacity
  | searches_running
  | searches_waiting
  | get_stats
  | is_task_processing
  | query_tasks (q : Query) (f : AuthFilter)
  deriving DecidableEq, Repr

/-- Errors surfaced by the route, by kind, each carrying the user-facing
message where one exists. -/
inductive MError where
  | featureDisabled
  | accessDenied (message : String)
  | subsystem (message : String)
  deriving DecidableEq, Repr

/-- The guidance text the route appends to the `InvalidToken` error message
(source line 31), verbatim. -/
def accessDeniedAppended : String :=
  " The API key for the `/metrics` route must allow access to all indexes."

/-- The exact suffix the spec requires the access-denied message to end
with. -/
def requiredSuffix : String :=
  "The API key for the `/metrics` route must allow access to all indexes."

/-- The query the route builds for the latency estimation (source lines
67-72): limit 1, reverse (most recently enqueued first), statuses `Enqueued`
and `Processing`, everything else `Query::default()`. -/
def latencyQuery : Query :=
  { limit := some 1
    reverse := some true
    statuses := some [Status.enqueued, Status.processing] }

/-- The six label-free gauge writes of source lines 37-44, in order. -/
def scalarWrites (response : Stats) (env : Env) : List (MetricKey × ℚ) :=
  [(dbSizeKey, (asI64 response.database_size : ℚ)),
   (usedDbSizeKey, (asI64 response.used_database_size : ℚ)),
   (indexCountKey, (asI64 response.indexes.length : ℚ)),
   (searchQueueSizeKey, (asI64 env.capacity : ℚ)),
   (searchesRunningKey, (asI64 env.searches_running : ℚ)),
   (searchesWaitingKey, (asI64 env.searches_waiting : ℚ))]

/-- The per-index `index_docs_count` writes of source lines 46-50. -/
def docsWrites (response : Stats) : List (MetricKey × ℚ) :=
  response.indexes.map
    (fun p => (indexDocsCountKey p.1, (asI64 p.2.number_of_documents : ℚ)))

/-- All writes performed right after `create_all_stats` succeeds (source
lines 37-50). -/
def statsWrites (response : Stats) (env : Env) : List (MetricKey × ℚ) :=
  scalarWrites response env ++ docsWrites response

/-- The nested `nb_tasks` writes of source lines 52-58. -/
def nbTasksWrites (taskStats : List (String × List (String × Nat))) :
    List (MetricKey × ℚ) :=
  (taskStats.map
    (fun kv => kv.2.map (fun sv => (nbTasksKey kv.1 sv.1, (asI64 sv.2 : ℚ))))).flatten

/-- The conditional `last_update` write of source lines 60-62. -/
def lastUpdateWrites (lu : Option Int) : List (MetricKey × ℚ) :=
  match lu with
  | some t => [(lastUpdateKey, (t : ℚ))]
  | none => []

/-- Modelled from the spec: the text exposition label block
`\x7blabel="value",...\x7d`.  The prometheus `TextEncoder` is not part of
these sources; the spec fixes the line shape `name\x7blabel="value",...\x7d
number`. -/
def renderLabels (labels : List (String × String)) : String :=
  "\x7b" ++ String.intercalate "," (labels.map (fun l => l.1 ++ "=\"" ++ l.2 ++ "\"")) ++ "\x7d"

/-- Modelled from the spec: one rendered exposition line for one registry
sample. -/
def renderLine (k : MetricKey) (v : ℚ) : String :=
  (if k.2.isEmpty then k.1 else k.1 ++ renderLabels k.2) ++ " " ++ toString v

/-- Modelled from the spec: render the whole registry, one line per sample
(ordering is the registry's; the spec requires no particular order). -/
def render (reg : Registry) : List String :=
  reg.map (fun e => renderLine e.1 e.2)

deriving instance DecidableEq for Except

/-- The latency computation of source lines 75-78:
`.first().map(|task| (now - task.enqueued_at).as_seconds_f64()).unwrap_or(0.0)`. -/
def latencyOf (env : Env) (tasks : List Task) : ℚ :=
  match tasks.head? with
  | some task => env.now - task.enqueued_at
  | none => 0

/-- Recognise a task-query call in the call trace. -/
def isQueryCall : Call → Bool := fun c =>
  match c with
  | Call.query_tasks _ _ => true
  | _ => false

/-- Outcome of one request: the HTTP-level result (rendered body on success),
the registry state after the request, and the trace of external calls. -/
structure RunResult where
  result : Except MError String
  registry : Registry
  trace : List Call
  deriving DecidableEq, Repr

/-- Shallow embedding of `get_metrics` (source lines 20-88).  Mirrors the
source's control flow: feature gate, access gate, `create_all_stats`, gauge
writes, `get_stats` and its writes, the conditional `last_update` write,
`is_task_processing`, the latency task query, the latency write, and the
final rendering.  `reg` is the process-wide registry at the start of the
request. -/
def get_metrics (env : Env) (reg : Registry) : RunResult :=
  if env.metrics_feature_enabled = false then
    { result := Except.error MError.featureDisabled
      registry := reg
      trace := [Call.check_metrics] }
  else if env.filters.all_indexes_authorized = false then
    { result := Except.error (MError.accessDenied
        (env.invalid_token_message ++ accessDeniedAppended))
      registry := reg
      trace := [Call.check_metrics, Call.filters] }
  else
    match env.create_all_stats with
    | Except.error m =>
      { result := Except.error (MError.subsystem m)
        registry := reg
        trace := [Call.check_metrics, Call.filters, Call.create_all_stats] }
    | Except.ok response =>
      let reg1 := applyWrites reg (statsWrites response env)
      match env.get_stats with
      | Except.error m =>
        { result := Except.error (MError.subsystem m)
          registry := reg1
          trace := [Call.check_metrics, Call.filters, Call.create_all_stats,
            Call.capacity, Call.searches_running, Call.searches_waiting,
            Call.get_stats] }
      | Except.ok taskStats =>
        let reg2 := applyWrites reg1 (nbTasksWrites taskStats)
        let reg3 := applyWrites reg2 (lastUpdateWrites response.last_update)
        match env.is_task_processing with
        | Except.error m =>
          { result := Except.error (MError.subsystem m)
            registry := reg3
            trace := [Call.check_metrics, Call.filters, Call.create_all_stats,
              Call.capacity, Call.searches_running, Call.searches_waiting,
              Call.get_stats, Call.is_task_processing] }
        | Except.ok processing =>
          let reg4 := applyWrites reg3
            [(isIndexingKey, if processing then (1 : ℚ) else 0)]
          match env.get_tasks_from_authorized_indexes latencyQuery env.filters with
          | Except.error m =>
            { result := Except.error (MError.subsystem m)
              registry := reg4
              trace := [Call.check_metrics, Call.filters, Call.create_all_stats,
                Call.capacity, Call.searches_running, Call.searches_waiting,
                Call.get_stats, Call.is_task_processing,
                Call.query_tasks latencyQuery env.filters] }
          | Except.ok tasks =>
            let reg5 := applyWrites reg4 [(taskQueueLatencyKey, latencyOf env tasks)]
            { result := Except.ok (String.intercalate "\n" (render reg5))
              registry := reg5
              trace := [Call.check_metrics, Call.filters, Call.create_all_stats,
                Call.capacity, Call.searches_running, Call.searches_waiting,
                Call.get_stats, Call.is_task_processing,
                Call.query_tasks latencyQuery env.filters] }

/-! Concrete environments used to instantiate the claims on explicit
inputs. -/

/-- A concrete stats snapshot: one index `products` with 42 documents. -/
def stats0 : Stats :=
  { database_size := 5
    used_database_size := 3
    indexes := [("products", { number_of_documents := 42 })]
    last_update := some 7 }

/-- A nominal environment: feature enabled, all indexes authorized, every
retrieval succeeds, no pending task. -/
def envBase : Env :=
  { metrics_feature_enabled := true
    filters := { all_indexes_authorized := true }
    invalid_token_message := "The provided API key is invalid."
    create_all_stats := Except.ok stats0
    capacity := 20
    searches_running := 3
    searches_waiting := 5
    get_stats := Except.ok [("documentAdditionOrUpdate", [("enqueued", 1)])]
    is_task_processing := Except.ok false
    get_tasks_from_authorized_indexes := fun _ _ => Except.ok []
    now := 100 }

/-- Feature enabled but the caller's key is scoped to a subset of indexes. -/
def envDenied : Env := { envBase with filters := { all_indexes_authorized := false } }

/-- Metrics feature disabled, and the filter also lacks all-index scope. -/
def envDisabled : Env :=
  { envBase with metrics_feature_enabled := false
                 filters := { all_indexes_authorized := false } }

/-- Nominal environment whose `get_stats` retrieval fails mid-pass. -/
def envStatsFail : Env := { envBase with get_stats := Except.error "boom" }

/-- Snapshot of a first pass: one index `a` with 1 document. -/
def statsP1 : Stats :=
  { database_size := 5
    used_database_size := 3
    indexes := [("a", { number_of_documents := 1 })]
    last_update := some 7 }

/-- Snapshot of a second pass: only index `b`, index `a` is gone. -/
def statsP2 : Stats :=
  { database_size := 5
    used_database_size := 3
    indexes := [("b", { number_of_documents := 2 })]
    last_update := some 8 }

/-- Environment of the first pass over `statsP1`. -/
def envP1 : Env := { envBase with create_all_stats := Except.ok statsP1 }

/-- Environment of the second pass over `statsP2`. -/
def envP2 : Env := { envBase with create_all_stats := Except.ok statsP2 }

/-- A task enqueued at time 100, after the (skewed) current time 90 of
`envSkew`. -/
def taskSkew : Task := { enqueued_at := 100, status := Status.enqueued }

/-- Nominal environment where the latency query returns `taskSkew` and the
wall clock reads 90, before the task's enqueue time. -/
def envSkew : Env :=
  { envBase with
      get_tasks_from_authorized_indexes := fun _ _ => Except.ok [taskSkew]
      now := 90 }

/-- Stats snapshot carrying no last-update timestamp. -/
def statsNoUpdate : Stats := { stats0 with last_update := none }

/-- Nominal environment whose snapshot has no last-update timestamp. -/
def envNoUpdate : Env := { envBase with create_all_stats := Except.ok statsNoUpdate }

/-- A registry holding a `last_update` value and an `index_docs_count` series
left over from an earlier pass (the index `stale` is absent from `stats0`). -/
def regStale : Registry :=
  [(lastUpdateKey, (3 : ℚ)), (indexDocsCountKey "stale", (9 : ℚ))]

/-! Basic lemmas about the registry operations. -/

theorem regGet_regSet_self (reg : Registry) (k : MetricKey) (v : ℚ) :
    regGet (regSet reg k v) k = some v := by
  induction reg with
  | nil => simp [regGet, regSet]
  | cons e rest ih =>
    by_cases h : e.1 = k
    · simp [regSet, regGet, h]
    · simp [regSet, regGet, h, ih]

theorem regGet_regSet_ne (reg : Registry) (k k' : MetricKey) (v : ℚ)
    (h : k' ≠ k) :
    regGet (regSet reg k v) k' = regGet reg k' := by
  induction reg with
  | nil => simp [regGet, regSet, Ne.symm h]
  | cons e rest ih =>
    by_cases he : e.1 = k
    · simp [regSet, regGet, he, Ne.symm h]
    · by_cases he' : e.1 = k'
      · simp [regSet, regGet, he, he', h]
      · simp [regSet, regGet, he, he', ih]

theorem regGet_regSet_isSome (reg : Registry) (k k' : MetricKey) (v : ℚ)
    (h : (regGet reg k').isSome = true) :
    (regGet (regSet reg k v) k').isSome = true := by
  by_cases hk : k' = k
  · subst hk; simp [regGet_regSet_self]
  · rw [regGet_regSet_ne reg k k' v hk]; exact h

theorem regGet_regSet_isSome_cases (reg : Registry) (k k' : MetricKey) (v : ℚ)
    (h : (regGet (regSet reg k v) k').isSome = true) :
    k' = k ∨ (regGet reg k').isSome = true := by
  by_cases hk : k' = k
  · exact Or.inl hk
  · right; rw [regGet_regSet_ne reg k k' v hk] at h; exact h

theorem mem_of_mem_regSet (reg : Registry) (k : MetricKey) (v : ℚ)
    (e : MetricKey × ℚ) (h : e ∈ regSet reg k v) : e.1 = k ∨ e ∈ reg := by
  induction reg with
  | nil =>
    simp [regSet] at h
    subst h; exact Or.inl rfl
  | cons f rest ih =>
    by_cases hf : f.1 = k
    · simp [regSet, hf] at h
      rcases h with h | h
      · subst h; exact Or.inl rfl
      · exact Or.inr (List.mem_cons_of_mem _ h)
    · simp only [regSet, if_neg hf, List.mem_cons] at h
      rcases h with h | h
      · subst h; exact Or.inr (List.mem_cons_self _ _)
      · rcases ih h with h' | h'
        · exact Or.inl h'
        · exact Or.inr (List.mem_cons_of_mem _ h')

theorem mem_of_regGet_eq_some (reg : Registry) (k : MetricKey) (v : ℚ)
    (h : regGet reg k = some v) : (k, v) ∈ reg := by
  induction reg with
  | nil => simp [regGet] at h
  | cons e rest ih =>
    by_cases he : e.1 = k
    · simp only [regGet, if_pos he, Option.some.injEq] at h
      subst he; subst h
      exact List.mem_cons_self _ _
    · simp only [regGet, if_neg he] at h
      exact List.mem_cons_of_mem _ (ih h)

/-! Lemmas about sequences of writes. -/

theorem applyWrites_nil (reg : Registry) : applyWrites reg [] = reg := rfl

theorem applyWrites_cons (reg : Registry) (w : MetricKey × ℚ)
    (ws : List (MetricKey × ℚ)) :
    applyWrites reg (w :: ws) = applyWrites (regSet reg w.1 w.2) ws := rfl

theorem applyWrites_append (reg : Registry) (a b : List (MetricKey × ℚ)) :
    applyWrites reg (a ++ b) = applyWrites (applyWrites reg a) b := by
  simp [applyWrites, List.foldl_append]

theorem regGet_applyWrites_of_not_mem (reg : Registry)
    (ws : List (MetricKey × ℚ)) (k : MetricKey) (h : ∀ w ∈ ws, w.1 ≠ k) :
    regGet (applyWrites reg ws) k = regGet reg k := by
  induction ws generalizing reg with
  | nil => rfl
  | cons w ws ih =>
    rw [applyWrites_cons, ih _ (fun x hx => h x (List.mem_cons_of_mem _ hx))]
    exact regGet_regSet_ne _ _ _ _ (Ne.symm (h w (List.mem_cons_self _ _)))

theorem regGet_applyWrites_of_mem (reg : Registry) (ws : List (MetricKey × ℚ))
    (k : MetricKey) (v : ℚ) (hnd : (ws.map Prod.fst).Nodup)
    (hm : (k, v) ∈ ws) :
    regGet (applyWrites reg ws) k = some v := by
  induction ws generalizing reg with
  | nil => cases hm
  | cons w ws ih =>
    simp only [List.map_cons, List.nodup_cons] at hnd
    rcases List.mem_cons.mp hm with h1 | h1
    · rw [applyWrites_cons]
      have hk : ∀ x ∈ ws, x.1 ≠ k := by
        intro x hx hxk
        apply hnd.1
        have hw : w.1 = x.1 := by rw [← h1, hxk]
        rw [hw]
        exact List.mem_map_of_mem Prod.fst hx
      rw [regGet_applyWrites_of_not_mem _ _ _ hk, ← h1]
      exact regGet_regSet_self _ _ _
    · rw [applyWrites_cons]
      exact ih _ hnd.2 h1

theorem regGet_applyWrites_isSome (reg : Registry) (ws : List (MetricKey × ℚ))
    (k : MetricKey) (h : (regGet reg k).isSome = true) :
    (regGet (applyWrites reg ws) k).isSome = true := by
  induction ws generalizing reg with
  | nil => exact h
  | cons w ws ih =>
    rw [applyWrites_cons]
    exact ih _ (regGet_regSet_isSome _ _ _ _ h)

theorem regGet_applyWrites_isSome_cases (reg : Registry)
    (ws : List (MetricKey × ℚ)) (k : MetricKey)
    (h : (regGet (applyWrites reg ws) k).isSome = true) :
    (regGet reg k).isSome = true ∨ ∃ w ∈ ws, w.1 = k := by
  induction ws generalizing reg with
  | nil => exact Or.inl h
  | cons w ws ih =>
    rw [applyWrites_cons] at h
    rcases ih _ h with h' | h'
    · rcases regGet_regSet_isSome_cases _ _ _ _ h' with h'' | h''
      · exact Or.inr ⟨w, List.mem_cons_self _ _, h''.symm⟩
      · exact Or.inl h''
    · rcases h' with ⟨x, hx, hxk⟩
      exact Or.inr ⟨x, List.mem_cons_of_mem _ hx, hxk⟩

/-! Shape of the keys touched by each write group. -/

theorem key_ne_of_name_ne {k k' : MetricKey} (h : k.1 ≠ k'.1) : k ≠ k' :=
  fun he => h (congrArg Prod.fst he)

theorem scalarWrites_keys (response : Stats) (env : Env) :
    (scalarWrites response env).map Prod.fst =
      [dbSizeKey, usedDbSizeKey, indexCountKey, searchQueueSizeKey,
       searchesRunningKey, searchesWaitingKey] := rfl

theorem mem_scalarWrites_key (response : Stats) (env : Env)
    (w : MetricKey × ℚ) (h : w ∈ scalarWrites response env) :
    w.1 ∈ [dbSizeKey, usedDbSizeKey, indexCountKey, searchQueueSizeKey,
      searchesRunningKey, searchesWaitingKey] := by
  rw [← scalarWrites_keys response env]
  exact List.mem_map_of_mem Prod.fst h

theorem mem_docsWrites (response : Stats) (w : MetricKey × ℚ)
    (h : w ∈ docsWrites response) :
    ∃ p ∈ response.indexes,
      w = (indexDocsCountKey p.1, (asI64 p.2.number_of_documents : ℚ)) := by
  simp only [docsWrites, List.mem_map] at h
  obtain ⟨p, hp, he⟩ := h
  exact ⟨p, hp, he.symm⟩

theorem docsWrites_name (response : Stats) (w : MetricKey × ℚ)
    (h : w ∈ docsWrites response) : w.1.1 = "index_docs_count" := by
  obtain ⟨p, _, he⟩ := mem_docsWrites response w h
  rw [he]; rfl

theorem mem_nbTasksWrites (taskStats : List (String × List (String × Nat)))
    (w : MetricKey × ℚ) (h : w ∈ nbTasksWrites taskStats) :
    ∃ kind sts c, w = (nbTasksKey kind sts, (asI64 c : ℚ)) := by
  simp only [nbTasksWrites, List.mem_flatten, List.mem_map] at h
  obtain ⟨l, ⟨kv, _, hl⟩, hw⟩ := h
  rw [← hl] at hw
  simp only [List.mem_map] at hw
  obtain ⟨sv, _, he⟩ := hw
  exact ⟨kv.1, sv.1, sv.2, he.symm⟩

theorem nbTasksWrites_name (taskStats : List (String × List (String × Nat)))
    (w : MetricKey × ℚ) (h : w ∈ nbTasksWrites taskStats) :
    w.1.1 = "nb_tasks" := by
  obtain ⟨kind, sts, c, he⟩ := mem_nbTasksWrites taskStats w h
  rw [he]; rfl

theorem mem_lastUpdateWrites (lu : Option Int) (w : MetricKey × ℚ)
    (h : w ∈ lastUpdateWrites lu) :
    ∃ t, lu = some t ∧ w = (lastUpdateKey, (t : ℚ)) := by
  cases lu with
  | none => simp [lastUpdateWrites] at h
  | some t =>
    simp only [lastUpdateWrites, List.mem_singleton] at h
    exact ⟨t, rfl, h⟩

theorem lastUpdateWrites_name (lu : Option Int) (w : MetricKey × ℚ)
    (h : w ∈ lastUpdateWrites lu) : w.1.1 = "last_update" := by
  obtain ⟨t, _, he⟩ := mem_lastUpdateWrites lu w h
  rw [he]; rfl

/-! Unfolding lemmas for the branches of `get_metrics`. -/

theorem get_metrics_success_registry (env : Env) (reg : Registry)
    (response : Stats) (taskStats : List (String × List (String × Nat)))
    (processing : Bool) (tasks : List Task)
    (hfe : env.metrics_feature_enabled = true)
    (ha : env.filters.all_indexes_authorized = true)
    (hc : env.create_all_stats = Except.ok response)
    (hts : env.get_stats = Except.ok taskStats)
    (hp : env.is_task_processing = Except.ok processing)
    (hq : env.get_tasks_from_authorized_indexes latencyQuery env.filters
      = Except.ok tasks) :
    (get_metrics env reg).registry =
      applyWrites reg (statsWrites response env ++ nbTasksWrites taskStats
        ++ lastUpdateWrites response.last_update
        ++ [(isIndexingKey, if processing then (1 : ℚ) else 0)]
        ++ [(taskQueueLatencyKey, latencyOf env tasks)]) := by
  simp [get_metrics, hfe, ha, hc, hts, hp, hq, applyWrites_append, applyWrites]

theorem get_metrics_registry_applyWrites (env : Env) (reg : Registry) :
    ∃ ws, (get_metrics env reg).registry = applyWrites reg ws := by
  by_cases hfe : env.metrics_feature_enabled = false
  · exact ⟨[], by simp [get_metrics, hfe, applyWrites]⟩
  by_cases ha : env.filters.all_indexes_authorized = false
  · exact ⟨[], by simp [get_metrics, hfe, ha, applyWrites]⟩
  cases hc : env.create_all_stats with
  | error m => exact ⟨[], by simp [get_metrics, hfe, ha, hc, applyWrites]⟩
  | ok response =>
    cases hts : env.get_stats with
    | error m =>
      exact ⟨statsWrites response env, by simp [get_metrics, hfe, ha, hc, hts]⟩
    | ok taskStats =>
      cases hp : env.is_task_processing with
      | error m =>
        exact ⟨statsWrites response env ++ nbTasksWrites taskStats
          ++ lastUpdateWrites response.last_update,
          by simp [get_metrics, hfe, ha, hc, hts, hp, applyWrites_append]⟩
      | ok processing =>
        cases hq : env.get_tasks_from_authorized_indexes latencyQuery env.filters with
        | error m =>
          exact ⟨statsWrites response env ++ nbTasksWrites taskStats
            ++ lastUpdateWrites response.last_update
            ++ [(isIndexingKey, if processing then (1 : ℚ) else 0)],
            by simp [get_metrics, hfe, ha, hc, hts, hp, hq, applyWrites_append, applyWrites]⟩
        | ok tasks =>
          exact ⟨statsWrites response env ++ nbTasksWrites taskStats
            ++ lastUpdateWrites response.last_update
            ++ [(isIndexingKey, if processing then (1 : ℚ) else 0)]
            ++ [(taskQueueLatencyKey, latencyOf env tasks)],
            by simp [get_metrics, hfe, ha, hc, hts, hp, hq, applyWrites_append, applyWrites]⟩

/-! Frame helpers: write groups never touch keys with a foreign name. -/

theorem nbTasksWrites_key_ne (taskStats : List (String × List (String × Nat)))
    (k : MetricKey) (hk : k.1 ≠ "nb_tasks") :
    ∀ w ∈ nbTasksWrites taskStats, w.1 ≠ k := by
  intro w hw he
  exact hk (by rw [← he, nbTasksWrites_name taskStats w hw])

theorem docsWrites_key_ne (response : Stats) (k : MetricKey)
    (hk : k.1 ≠ "index_docs_count") :
    ∀ w ∈ docsWrites response, w.1 ≠ k := by
  intro w hw he
  exact hk (by rw [← he, docsWrites_name response w hw])

theorem lastUpdateWrites_key_ne (lu : Option Int) (k : MetricKey)
    (hk : k.1 ≠ "last_update") :
    ∀ w ∈ lastUpdateWrites lu, w.1 ≠ k := by
  intro w hw he
  exact hk (by rw [← he, lastUpdateWrites_name lu w hw])

theorem scalarWrites_key_labels (response : Stats) (env : Env)
    (w : MetricKey × ℚ) (h : w ∈ scalarWrites response env) : w.1.2 = [] := by
  have hm := mem_scalarWrites_key response env w h
  simp only [List.mem_cons, List.not_mem_nil, or_false] at hm
  rcases hm with h' | h' | h' | h' | h' | h' <;> rw [h'] <;> rfl

theorem scalarWrites_key_ne (response : Stats) (env : Env) (k : MetricKey)
    (hk : k ∉ [dbSizeKey, usedDbSizeKey, indexCountKey, searchQueueSizeKey,
      searchesRunningKey, searchesWaitingKey]) :
    ∀ w ∈ scalarWrites response env, w.1 ≠ k := by
  intro w hw he
  exact hk (he ▸ mem_scalarWrites_key response env w hw)

theorem scalarWrites_key_ne_labelled (response : Stats) (env : Env)
    (k : MetricKey) (hk : k.2 ≠ []) :
    ∀ w ∈ scalarWrites response env, w.1 ≠ k := by
  intro w hw he
  exact hk (by rw [← he, scalarWrites_key_labels response env w hw])

theorem singleton_key_ne (k0 : MetricKey) (v : ℚ) (k : MetricKey)
    (hk : k0 ≠ k) : ∀ w ∈ [(k0, v)], w.1 ≠ k := by
  intro w hw
  simp only [List.mem_singleton] at hw
  rw [hw]
  exact hk

theorem docsWrites_keys (response : Stats) :
    (docsWrites response).map Prod.fst =
      (response.indexes.map Prod.fst).map indexDocsCountKey := by
  simp [docsWrites, List.map_map]

theorem indexDocsCountKey_injective : Function.Injective indexDocsCountKey := by
  intro a b h
  simpa [indexDocsCountKey] using h

theorem indexDocsCountKey_name (i : String) :
    (indexDocsCountKey i).1 = "index_docs_count" := rfl

/-! The claims. -/

/-- C1: for every access filter that does not cover all indexes (with the
metrics feature enabled, that gate being checked first), `get_metrics`
returns an `AccessDenied` error and never invokes the stats aggregation: no
call to `create_all_stats`, no scheduler or search-queue retrieval, and no
metric write (the registry is returned unchanged). -/
theorem claim1_access_denied_no_aggregation (env : Env) (reg : Registry)
    (hfe : env.metrics_feature_enabled = true)
    (hna : env.filters.all_indexes_authorized = false) :
    (∃ m, (get_metrics env reg).result = Except.error (MError.accessDenied m))
    ∧ (get_metrics env reg).registry = reg
    ∧ Call.create_all_stats ∉ (get_metrics env reg).trace
    ∧ Call.get_stats ∉ (get_metrics env reg).trace
    ∧ Call.is_task_processing ∉ (get_metrics env reg).trace
    ∧ Call.capacity ∉ (get_metrics env reg).trace
    ∧ Call.searches_running ∉ (get_metrics env reg).trace
    ∧ Call.searches_waiting ∉ (get_metrics env reg).trace
    ∧ (∀ q f, Call.query_tasks q f ∉ (get_metrics env reg).trace) := by
  simp [get_metrics, hfe, hna]

/-- C1, instantiated: a concrete scoped filter is denied with no aggregation
activity. -/
theorem claim1_witness :
    envDenied.metrics_feature_enabled = true
    ∧ envDenied.filters.all_indexes_authorized = false
    ∧ ((∃ m, (get_metrics envDenied regStale).result
          = Except.error (MError.accessDenied m))
      ∧ (get_metrics envDenied regStale).registry = regStale
      ∧ Call.create_all_stats ∉ (get_metrics envDenied regStale).trace
      ∧ Call.get_stats ∉ (get_metrics envDenied regStale).trace
      ∧ Call.is_task_processing ∉ (get_metrics envDenied regStale).trace
      ∧ Call.capacity ∉ (get_metrics envDenied regStale).trace
      ∧ Call.searches_running ∉ (get_metrics envDenied regStale).trace
      ∧ Call.searches_waiting ∉ (get_metrics envDenied regStale).trace
      ∧ (∀ q f, Call.query_tasks q f ∉ (get_metrics envDenied regStale).trace)) :=
  ⟨rfl, rfl, claim1_access_denied_no_aggregation envDenied regStale rfl rfl⟩

/-- C2: the feature gate is evaluated before the all-indexes access gate:
with the feature disabled, `get_metrics` fails with `FeatureDisabled`
regardless of the filter's scope, the `AccessDenied` branch is never reached,
and nothing else happens. -/
theorem claim2_feature_gate_before_access_gate (env : Env) (reg : Registry)
    (hfd : env.metrics_feature_enabled = false) :
    (get_metrics env reg).result = Except.error MError.featureDisabled
    ∧ (∀ m, (get_metrics env reg).result ≠ Except.error (MError.accessDenied m))
    ∧ (get_metrics env reg).registry = reg
    ∧ (get_metrics env reg).trace = [Call.check_metrics] := by
  simp [get_metrics, hfd]

/-- C2, instantiated: with the feature disabled and a subset-scoped filter,
the result is `FeatureDisabled`, not `AccessDenied`. -/
theorem claim2_witness :
    envDisabled.metrics_feature_enabled = false
    ∧ envDisabled.filters.all_indexes_authorized = false
    ∧ ((get_metrics envDisabled regStale).result
        = Except.error MError.featureDisabled
      ∧ (∀ m, (get_metrics envDisabled regStale).result
          ≠ Except.error (MError.accessDenied m))
      ∧ (get_metrics envDisabled regStale).registry = regStale
      ∧ (get_metrics envDisabled regStale).trace = [Call.check_metrics]) :=
  ⟨rfl, rfl, claim2_feature_gate_before_access_gate envDisabled regStale rfl⟩

/-- C8: for every subset-scoped access filter (feature enabled), the error
returned by `get_metrics` is access-denied with a message that ends with the
exact suffix "The API key for the `/metrics` route must allow access to all
indexes.". -/
theorem claim8_denied_message_ends_with_suffix (env : Env) (reg : Registry)
    (hfe : env.metrics_feature_enabled = true)
    (hna : env.filters.all_indexes_authorized = false) :
    ∃ m pre, (get_metrics env reg).result = Except.error (MError.accessDenied m)
      ∧ m = pre ++ requiredSuffix := by
  refine ⟨env.invalid_token_message ++ accessDeniedAppended,
    env.invalid_token_message ++ " ", by simp [get_metrics, hfe, hna], ?_⟩
  rw [String.append_assoc]
  rfl

/-- C8, instantiated on a concrete denied request. -/
theorem claim8_witness :
    envDenied.metrics_feature_enabled = true
    ∧ envDenied.filters.all_indexes_authorized = false
    ∧ (∃ m pre, (get_metrics envDenied regStale).result
        = Except.error (MError.accessDenied m) ∧ m = pre ++ requiredSuffix) :=
  ⟨rfl, rfl, claim8_denied_message_ends_with_suffix envDenied regStale rfl rfl⟩

/-- C5: whenever a request reaches the queue-latency estimator (both gates
passed and the earlier retrievals succeeded), exactly one task query is
issued, and it has limit 1, reverse (most recently enqueued first) ordering,
a status filter of exactly Enqueued and Processing, and carries the caller's
auth filter. -/
theorem claim5_latency_query_exactly_once (env : Env) (reg : Registry)
    (response : Stats) (taskStats : List (String × List (String × Nat)))
    (processing : Bool)
    (hfe : env.metrics_feature_enabled = true)
    (ha : env.filters.all_indexes_authorized = true)
    (hc : env.create_all_stats = Except.ok response)
    (hts : env.get_stats = Except.ok taskStats)
    (hp : env.is_task_processing = Except.ok processing) :
    (get_metrics env reg).trace.filter isQueryCall =
      [Call.query_tasks
        { limit := some 1
          reverse := some true
          statuses := some [Status.enqueued, Status.processing] } env.filters] := by
  cases hq : env.get_tasks_from_authorized_indexes latencyQuery env.filters with
  | error m =>
    simp only [latencyQuery] at hq
    simp [get_metrics, hfe, ha, hc, hts, hp, hq, isQueryCall, latencyQuery]
  | ok tasks =>
    simp only [latencyQuery] at hq
    simp [get_metrics, hfe, ha, hc, hts, hp, hq, isQueryCall, latencyQuery]

/-- C5, instantiated on a nominal request. -/
theorem claim5_witness :
    envBase.metrics_feature_enabled = true
    ∧ envBase.filters.all_indexes_authorized = true
    ∧ envBase.create_all_stats = Except.ok stats0
    ∧ envBase.get_stats = Except.ok [("documentAdditionOrUpdate", [("enqueued", 1)])]
    ∧ envBase.is_task_processing = Except.ok false
    ∧ (get_metrics envBase regStale).trace.filter isQueryCall =
        [Call.query_tasks
          { limit := some 1
            reverse := some true
            statuses := some [Status.enqueued, Status.processing] } envBase.filters] :=
  ⟨rfl, rfl, rfl, rfl, rfl,
    claim5_latency_query_exactly_once envBase regStale stats0
      [("documentAdditionOrUpdate", [("enqueued", 1)])] false rfl rfl rfl rfl rfl⟩

/-- C3, counterexample to the claim as stated: when `get_stats` fails
mid-pass, the first failure is propagated with the origin message, but the
registry is NOT left exactly as it was before the pass — the writes of source
lines 37-50 (database sizes, index count, search-queue gauges, per-index
document counts) have already happened. -/
theorem claim3_counterexample :
    envStatsFail.get_stats = Except.error "boom"
    ∧ (get_metrics envStatsFail []).result = Except.error (MError.subsystem "boom")
    ∧ (get_metrics envStatsFail []).registry ≠ ([] : Registry)
    ∧ regGet (get_metrics envStatsFail []).registry dbSizeKey = some 5 := by
  decide

/-- C3 (amended): a failing retrieval aborts the pass with an error carrying
the origin component's message, and no metric write after the failing call is
performed; the writes already performed earlier in the same pass remain in
the registry (in particular a `create_all_stats` failure leaves the registry
exactly as it was before the pass, since it precedes every write). -/
theorem claim3_amended_first_failure_propagates (env : Env) (reg : Registry)
    (hfe : env.metrics_feature_enabled = true)
    (ha : env.filters.all_indexes_authorized = true) :
    (∀ m, env.create_all_stats = Except.error m →
      (get_metrics env reg).result = Except.error (MError.subsystem m)
      ∧ (get_metrics env reg).registry = reg)
    ∧ (∀ response m, env.create_all_stats = Except.ok response →
        env.get_stats = Except.error m →
        (get_metrics env reg).result = Except.error (MError.subsystem m)
        ∧ (get_metrics env reg).registry = applyWrites reg (statsWrites response env))
    ∧ (∀ response taskStats m, env.create_all_stats = Except.ok response →
        env.get_stats = Except.ok taskStats →
        env.is_task_processing = Except.error m →
        (get_metrics env reg).result = Except.error (MError.subsystem m)
        ∧ (get_metrics env reg).registry =
            applyWrites reg (statsWrites response env ++ nbTasksWrites taskStats
              ++ lastUpdateWrites response.last_update))
    ∧ (∀ response taskStats processing m,
        env.create_all_stats = Except.ok response →
        env.get_stats = Except.ok taskStats →
        env.is_task_processing = Except.ok processing →
        env.get_tasks_from_authorized_indexes latencyQuery env.filters
          = Except.error m →
        (get_metrics env reg).result = Except.error (MError.subsystem m)
        ∧ (get_metrics env reg).registry =
            applyWrites reg (statsWrites response env ++ nbTasksWrites taskStats
              ++ lastUpdateWrites response.last_update
              ++ [(isIndexingKey, if processing then (1 : ℚ) else 0)])) := by
  refine ⟨?_, ?_, ?_, ?_⟩
  · intro m hm
    constructor <;> simp [get_metrics, hfe, ha, hm]
  · intro response m hc hm
    constructor <;> simp [get_metrics, hfe, ha, hc, hm]
  · intro response taskStats m hc hts hm
    constructor <;>
      simp [get_metrics, hfe, ha, hc, hts, hm, applyWrites_append]
  · intro response taskStats processing m hc hts hp hm
    constructor <;>
      simp [get_metrics, hfe, ha, hc, hts, hp, hm, applyWrites_append, applyWrites]

/-- C3 (amended), instantiated: a concrete mid-pass `get_stats` failure
propagates the message and leaves exactly the earlier writes in place. -/
theorem claim3_witness :
    envStatsFail.metrics_feature_enabled = true
    ∧ envStatsFail.filters.all_indexes_authorized = true
    ∧ envStatsFail.create_all_stats = Except.ok stats0
    ∧ envStatsFail.get_stats = Except.error "boom"
    ∧ ((get_metrics envStatsFail regStale).result
        = Except.error (MError.subsystem "boom")
      ∧ (get_metrics envStatsFail regStale).registry
          = applyWrites regStale (statsWrites stats0 envStatsFail)) :=
  ⟨rfl, rfl, rfl, rfl,
    (claim3_amended_first_failure_propagates envStatsFail regStale rfl rfl).2.1
      stats0 "boom" rfl rfl⟩

/-- C6: whenever the latency task query returns at least one task, the
`task_queue_latency_seconds` gauge is set to the current wall-clock time
minus the first returned task's enqueue timestamp, in (idealised fractional)
seconds, unconditionally — no clamping is applied, so a negative difference
under clock skew is written as-is. -/
theorem claim6_latency_is_now_minus_enqueued (env : Env) (reg : Registry)
    (response : Stats) (taskStats : List (String × List (String × Nat)))
    (processing : Bool) (task : Task) (rest : List Task)
    (hfe : env.metrics_feature_enabled = true)
    (ha : env.filters.all_indexes_authorized = true)
    (hc : env.create_all_stats = Except.ok response)
    (hts : env.get_stats = Except.ok taskStats)
    (hp : env.is_task_processing = Except.ok processing)
    (hq : env.get_tasks_from_authorized_indexes latencyQuery env.filters
      = Except.ok (task :: rest)) :
    regGet (get_metrics env reg).registry taskQueueLatencyKey
      = some (env.now - task.enqueued_at) := by
  rw [get_metrics_success_registry env reg response taskStats processing
    (task :: rest) hfe ha hc hts hp hq]
  rw [applyWrites_append]
  simp [applyWrites, latencyOf, regGet_regSet_self]

/-- C6, instantiated under clock skew: the task was enqueued at 100 while the
clock reads 90, and the written latency is exactly `90 - 100`, surfaced
negative as-is. -/
theorem claim6_witness :
    envSkew.metrics_feature_enabled = true
    ∧ envSkew.filters.all_indexes_authorized = true
    ∧ envSkew.create_all_stats = Except.ok stats0
    ∧ envSkew.get_tasks_from_authorized_indexes latencyQuery envSkew.filters
        = Except.ok [taskSkew]
    ∧ regGet (get_metrics envSkew regStale).registry taskQueueLatencyKey
        = some (envSkew.now - taskSkew.enqueued_at) :=
  ⟨rfl, rfl, rfl, rfl,
    claim6_latency_is_now_minus_enqueued envSkew regStale stats0
      [("documentAdditionOrUpdate", [("enqueued", 1)])] false taskSkew []
      rfl rfl rfl rfl rfl rfl⟩

/-- C7: whenever the latency task query returns no task, the
`task_queue_latency_seconds` gauge is set to exactly 0. -/
theorem claim7_latency_zero_when_no_task (env : Env) (reg : Registry)
    (response : Stats) (taskStats : List (String × List (String × Nat)))
    (processing : Bool)
    (hfe : env.metrics_feature_enabled = true)
    (ha : env.filters.all_indexes_authorized = true)
    (hc : env.create_all_stats = Except.ok response)
    (hts : env.get_stats = Except.ok taskStats)
    (hp : env.is_task_processing = Except.ok processing)
    (hq : env.get_tasks_from_authorized_indexes latencyQuery env.filters
      = Except.ok []) :
    regGet (get_metrics env reg).registry taskQueueLatencyKey = some 0 := by
  rw [get_metrics_success_registry env reg response taskStats processing
    [] hfe ha hc hts hp hq]
  rw [applyWrites_append]
  simp [applyWrites, latencyOf, regGet_regSet_self]

/-- C7, instantiated: an empty pending/processing task list yields latency
exactly 0. -/
theorem claim7_witness :
    envBase.get_tasks_from_authorized_indexes latencyQuery envBase.filters
        = Except.ok []
    ∧ regGet (get_metrics envBase regStale).registry taskQueueLatencyKey
        = some 0 :=
  ⟨rfl,
    claim7_latency_zero_when_no_task envBase regStale stats0
      [("documentAdditionOrUpdate", [("enqueued", 1)])] false
      rfl rfl rfl rfl rfl rfl⟩

/-- On a successful pass, reading any key that is not one of the labelled
families nor one of the two trailing scalar writes reduces to reading after
the six scalar writes alone. -/
theorem success_regGet_frame_to_scalars (env : Env) (reg : Registry)
    (response : Stats) (taskStats : List (String × List (String × Nat)))
    (processing : Bool) (tasks : List Task)
    (hfe : env.metrics_feature_enabled = true)
    (ha : env.filters.all_indexes_authorized = true)
    (hc : env.create_all_stats = Except.ok response)
    (hts : env.get_stats = Except.ok taskStats)
    (hp : env.is_task_processing = Except.ok processing)
    (hq : env.get_tasks_from_authorized_indexes latencyQuery env.filters
      = Except.ok tasks)
    (k : MetricKey)
    (h1 : k.1 ≠ "index_docs_count") (h2 : k.1 ≠ "nb_tasks")
    (h3 : k.1 ≠ "last_update") (h4 : k ≠ isIndexingKey)
    (h5 : k ≠ taskQueueLatencyKey) :
    regGet (get_metrics env reg).registry k
      = regGet (applyWrites reg (scalarWrites response env)) k := by
  rw [get_metrics_success_registry env reg response taskStats processing tasks
    hfe ha hc hts hp hq]
  simp only [statsWrites, applyWrites_append]
  rw [regGet_applyWrites_of_not_mem _ _ _ (singleton_key_ne _ _ _ (Ne.symm h5))]
  rw [regGet_applyWrites_of_not_mem _ _ _ (singleton_key_ne _ _ _ (Ne.symm h4))]
  rw [regGet_applyWrites_of_not_mem _ _ _ (lastUpdateWrites_key_ne _ _ h3)]
  rw [regGet_applyWrites_of_not_mem _ _ _ (nbTasksWrites_key_ne _ _ h2)]
  rw [regGet_applyWrites_of_not_mem _ _ _ (docsWrites_key_ne _ _ h1)]

/-- C9: on a successful pass, the `last_update` gauge is written (with the
snapshot's Unix timestamp) exactly when the snapshot carries one; when the
snapshot carries none, that registry key is not touched and keeps whatever
value it had before the pass, while the other gauges of the pass are all
still written. -/
theorem claim9_last_update_written_iff_present (env : Env) (reg : Registry)
    (response : Stats) (taskStats : List (String × List (String × Nat)))
    (processing : Bool) (tasks : List Task)
    (hfe : env.metrics_feature_enabled = true)
    (ha : env.filters.all_indexes_authorized = true)
    (hc : env.create_all_stats = Except.ok response)
    (hts : env.get_stats = Except.ok taskStats)
    (hp : env.is_task_processing = Except.ok processing)
    (hq : env.get_tasks_from_authorized_indexes latencyQuery env.filters
      = Except.ok tasks) :
    (∀ t, response.last_update = some t →
      regGet (get_metrics env reg).registry lastUpdateKey = some (t : ℚ))
    ∧ (response.last_update = none →
      regGet (get_metrics env reg).registry lastUpdateKey
        = regGet reg lastUpdateKey)
    ∧ regGet (get_metrics env reg).registry dbSizeKey
        = some (asI64 response.database_size : ℚ)
    ∧ regGet (get_metrics env reg).registry usedDbSizeKey
        = some (asI64 response.used_database_size : ℚ)
    ∧ regGet (get_metrics env reg).registry indexCountKey
        = some (asI64 response.indexes.length : ℚ)
    ∧ regGet (get_metrics env reg).registry searchQueueSizeKey
        = some (asI64 env.capacity : ℚ)
    ∧ regGet (get_metrics env reg).registry searchesRunningKey
        = some (asI64 env.searches_running : ℚ)
    ∧ regGet (get_metrics env reg).registry searchesWaitingKey
        = some (asI64 env.searches_waiting : ℚ)
    ∧ regGet (get_metrics env reg).registry isIndexingKey
        = some (if processing then (1 : ℚ) else 0)
    ∧ regGet (get_metrics env reg).registry taskQueueLatencyKey
        = some (latencyOf env tasks) := by
  have hmaster := get_metrics_success_registry env reg response taskStats
    processing tasks hfe ha hc hts hp hq
  refine ⟨?_, ?_, ?_, ?_, ?_, ?_, ?_, ?_, ?_, ?_⟩
  · intro t ht
    rw [hmaster]
    simp only [applyWrites_append]
    rw [regGet_applyWrites_of_not_mem _ _ _
      (singleton_key_ne _ _ _ (by decide))]
    rw [regGet_applyWrites_of_not_mem _ _ _
      (singleton_key_ne _ _ _ (by decide))]
    rw [ht]
    simp [lastUpdateWrites, applyWrites, regGet_regSet_self]
  · intro hn
    rw [hmaster, hn]
    simp only [statsWrites, applyWrites_append, lastUpdateWrites,
      applyWrites_nil]
    rw [regGet_applyWrites_of_not_mem _ _ _
      (singleton_key_ne _ _ _ (by decide))]
    rw [regGet_applyWrites_of_not_mem _ _ _
      (singleton_key_ne _ _ _ (by decide))]
    rw [regGet_applyWrites_of_not_mem _ _ _
      (nbTasksWrites_key_ne _ _ (by decide))]
    rw [regGet_applyWrites_of_not_mem _ _ _
      (docsWrites_key_ne _ _ (by decide))]
    rw [regGet_applyWrites_of_not_mem _ _ _
      (scalarWrites_key_ne _ _ _ (by decide))]
  · rw [success_regGet_frame_to_scalars env reg response taskStats processing
      tasks hfe ha hc hts hp hq dbSizeKey (by decide) (by decide) (by decide)
      (by decide) (by decide)]
    exact regGet_applyWrites_of_mem _ _ _ _
      (by rw [scalarWrites_keys]; decide) (by simp [scalarWrites])
  · rw [success_regGet_frame_to_scalars env reg response taskStats processing
      tasks hfe ha hc hts hp hq usedDbSizeKey (by decide) (by decide)
      (by decide) (by decide) (by decide)]
    exact regGet_applyWrites_of_mem _ _ _ _
      (by rw [scalarWrites_keys]; decide) (by simp [scalarWrites])
  · rw [success_regGet_frame_to_scalars env reg response taskStats processing
      tasks hfe ha hc hts hp hq indexCountKey (by decide) (by decide)
      (by decide) (by decide) (by decide)]
    exact regGet_applyWrites_of_mem _ _ _ _
      (by rw [scalarWrites_keys]; decide) (by simp [scalarWrites])
  · rw [success_regGet_frame_to_scalars env reg response taskStats processing
      tasks hfe ha hc hts hp hq searchQueueSizeKey (by decide) (by decide)
      (by decide) (by decide) (by decide)]
    exact regGet_applyWrites_of_mem _ _ _ _
      (by rw [scalarWrites_keys]; decide) (by simp [scalarWrites])
  · rw [success_regGet_frame_to_scalars env reg response taskStats processing
      tasks hfe ha hc hts hp hq searchesRunningKey (by decide) (by decide)
      (by decide) (by decide) (by decide)]
    exact regGet_applyWrites_of_mem _ _ _ _
      (by rw [scalarWrites_keys]; decide) (by simp [scalarWrites])
  · rw [success_regGet_frame_to_scalars env reg response taskStats processing
      tasks hfe ha hc hts hp hq searchesWaitingKey (by decide) (by decide)
      (by decide) (by decide) (by decide)]
    exact regGet_applyWrites_of_mem _ _ _ _
      (by rw [scalarWrites_keys]; decide) (by simp [scalarWrites])
  · rw [hmaster]
    simp only [applyWrites_append]
    rw [regGet_applyWrites_of_not_mem _ _ _
      (singleton_key_ne _ _ _ (by decide))]
    simp [applyWrites, regGet_regSet_self]
  · rw [hmaster]
    simp only [applyWrites_append]
    simp [applyWrites, regGet_regSet_self]

/-- C9, instantiated: a snapshot without a last-update timestamp leaves the
pre-pass `last_update` value in place while the other gauges are written. -/
theorem claim9_witness :
    statsNoUpdate.last_update = none
    ∧ regGet regStale lastUpdateKey = some 3
    ∧ ((∀ t, statsNoUpdate.last_update = some t →
        regGet (get_metrics envNoUpdate regStale).registry lastUpdateKey
          = some (t : ℚ))
      ∧ (statsNoUpdate.last_update = none →
        regGet (get_metrics envNoUpdate regStale).registry lastUpdateKey
          = regGet regStale lastUpdateKey)
      ∧ regGet (get_metrics envNoUpdate regStale).registry dbSizeKey
          = some (asI64 statsNoUpdate.database_size : ℚ)
      ∧ regGet (get_metrics envNoUpdate regStale).registry usedDbSizeKey
          = some (asI64 statsNoUpdate.used_database_size : ℚ)
      ∧ regGet (get_metrics envNoUpdate regStale).registry indexCountKey
          = some (asI64 statsNoUpdate.indexes.length : ℚ)
      ∧ regGet (get_metrics envNoUpdate regStale).registry searchQueueSizeKey
          = some (asI64 envNoUpdate.capacity : ℚ)
      ∧ regGet (get_metrics envNoUpdate regStale).registry searchesRunningKey
          = some (asI64 envNoUpdate.searches_running : ℚ)
      ∧ regGet (get_metrics envNoUpdate regStale).registry searchesWaitingKey
          = some (asI64 envNoUpdate.searches_waiting : ℚ)
      ∧ regGet (get_metrics envNoUpdate regStale).registry isIndexingKey
          = some (if false then (1 : ℚ) else 0)
      ∧ regGet (get_metrics envNoUpdate regStale).registry taskQueueLatencyKey
          = some (latencyOf envNoUpdate [])) :=
  ⟨rfl, rfl,
    claim9_last_update_written_iff_present envNoUpdate regStale statsNoUpdate
      [("documentAdditionOrUpdate", [("enqueued", 1)])] false []
      rfl rfl rfl rfl rfl rfl⟩

/-- C4, counterexample to the claim as stated: the registry is process-wide,
so a successful pass whose input lacks index `a` still renders the
`index_docs_count` line for `a` written by an earlier pass — the rendered
output is not limited to the indexes present in the current input. -/
theorem claim4_counterexample :
    statsP2.indexes.map Prod.fst = ["b"]
    ∧ envP2.create_all_stats = Except.ok statsP2
    ∧ (get_metrics envP2 (get_metrics envP1 []).registry).result
        = Except.ok (String.intercalate "\n"
            (render (get_metrics envP2 (get_metrics envP1 []).registry).registry))
    ∧ regGet (get_metrics envP2 (get_metrics envP1 []).registry).registry
        (indexDocsCountKey "a") = some 1
    ∧ renderLine (indexDocsCountKey "a") 1
        ∈ render (get_metrics envP2 (get_metrics envP1 []).registry).registry := by
  set_option maxRecDepth 10000 in decide

/-- C4 (amended): on a successful pass, the final registry (and hence the
rendered output) holds an `index_docs_count` line for every index of the
input snapshot with exactly that index's document count; and it holds no
`index_docs_count` entry for an index absent from the input unless such a
series was already in the process-wide registry before the pass (series from
earlier passes persist). -/
theorem claim4_amended_docs_count (env : Env) (reg : Registry)
    (response : Stats) (taskStats : List (String × List (String × Nat)))
    (processing : Bool) (tasks : List Task)
    (hfe : env.metrics_feature_enabled = true)
    (ha : env.filters.all_indexes_authorized = true)
    (hc : env.create_all_stats = Except.ok response)
    (hts : env.get_stats = Except.ok taskStats)
    (hp : env.is_task_processing = Except.ok processing)
    (hq : env.get_tasks_from_authorized_indexes latencyQuery env.filters
      = Except.ok tasks)
    (hnd : (response.indexes.map Prod.fst).Nodup) :
    (∀ p ∈ response.indexes,
      regGet (get_metrics env reg).registry (indexDocsCountKey p.1)
        = some (asI64 p.2.number_of_documents : ℚ)
      ∧ renderLine (indexDocsCountKey p.1) (asI64 p.2.number_of_documents : ℚ)
          ∈ render (get_metrics env reg).registry)
    ∧ (∀ idx, idx ∉ response.indexes.map Prod.fst →
      regGet reg (indexDocsCountKey idx) = none →
      regGet (get_metrics env reg).registry (indexDocsCountKey idx) = none) := by
  have hmaster := get_metrics_success_registry env reg response taskStats
    processing tasks hfe ha hc hts hp hq
  constructor
  · intro p hp'
    have hga : regGet (get_metrics env reg).registry (indexDocsCountKey p.1)
        = some (asI64 p.2.number_of_documents : ℚ) := by
      rw [hmaster]
      simp only [statsWrites, applyWrites_append]
      rw [regGet_applyWrites_of_not_mem _ _ _ (singleton_key_ne _ _ _
        (key_ne_of_name_ne (by rw [indexDocsCountKey_name]; decide)))]
      rw [regGet_applyWrites_of_not_mem _ _ _ (singleton_key_ne _ _ _
        (key_ne_of_name_ne (by rw [indexDocsCountKey_name]; decide)))]
      rw [regGet_applyWrites_of_not_mem _ _ _
        (lastUpdateWrites_key_ne _ _ (by rw [indexDocsCountKey_name]; decide))]
      rw [regGet_applyWrites_of_not_mem _ _ _
        (nbTasksWrites_key_ne _ _ (by rw [indexDocsCountKey_name]; decide))]
      refine regGet_applyWrites_of_mem _ _ _ _ ?_ ?_
      · rw [docsWrites_keys]
        exact hnd.map indexDocsCountKey_injective
      · simp only [docsWrites, List.mem_map]
        exact ⟨p, hp', rfl⟩
    refine ⟨hga, ?_⟩
    have hmem := mem_of_regGet_eq_some _ _ _ hga
    simpa [render] using
      List.mem_map_of_mem (fun e => renderLine e.1 e.2) hmem
  · intro idx hno h0
    rw [hmaster]
    simp only [statsWrites, applyWrites_append]
    rw [regGet_applyWrites_of_not_mem _ _ _ (singleton_key_ne _ _ _
      (key_ne_of_name_ne (by rw [indexDocsCountKey_name]; decide)))]
    rw [regGet_applyWrites_of_not_mem _ _ _ (singleton_key_ne _ _ _
      (key_ne_of_name_ne (by rw [indexDocsCountKey_name]; decide)))]
    rw [regGet_applyWrites_of_not_mem _ _ _
      (lastUpdateWrites_key_ne _ _ (by rw [indexDocsCountKey_name]; decide))]
    rw [regGet_applyWrites_of_not_mem _ _ _
      (nbTasksWrites_key_ne _ _ (by rw [indexDocsCountKey_name]; decide))]
    rw [regGet_applyWrites_of_not_mem _ _ _ ?hdocs]
    case hdocs =>
      intro w hw he
      obtain ⟨q, hq', heq⟩ := mem_docsWrites response w hw
      apply hno
      have hq1 : q.1 = idx := by
        apply indexDocsCountKey_injective
        rw [← he, heq]
      exact hq1 ▸ List.mem_map_of_mem Prod.fst hq'
    rw [regGet_applyWrites_of_not_mem _ _ _
      (scalarWrites_key_ne_labelled _ _ _ (by simp [indexDocsCountKey]))]
    exact h0

/-- C4 (amended), instantiated on the nominal snapshot from an empty
registry. -/
theorem claim4_witness :
    envBase.create_all_stats = Except.ok stats0
    ∧ (stats0.indexes.map Prod.fst).Nodup
    ∧ ((∀ p ∈ stats0.indexes,
        regGet (get_metrics envBase []).registry (indexDocsCountKey p.1)
          = some (asI64 p.2.number_of_documents : ℚ)
        ∧ renderLine (indexDocsCountKey p.1) (asI64 p.2.number_of_documents : ℚ)
            ∈ render (get_metrics envBase []).registry)
      ∧ (∀ idx, idx ∉ stats0.indexes.map Prod.fst →
        regGet ([] : Registry) (indexDocsCountKey idx) = none →
        regGet (get_metrics envBase []).registry (indexDocsCountKey idx)
          = none)) :=
  ⟨rfl, by decide,
    claim4_amended_docs_count envBase [] stats0
      [("documentAdditionOrUpdate", [("enqueued", 1)])] false []
      rfl rfl rfl rfl rfl rfl (by decide)⟩

/-- C10: `get_metrics` only ever sets gauge values, it never removes a
registry key: any (metric name, label values) series present before the
request — for instance an `index_docs_count` or `nb_tasks` series written by
an earlier pass whose key is absent from the current snapshot — still has a
value afterwards and still yields a line of the rendered output. -/
theorem claim10_series_persist (env : Env) (reg : Registry) (k : MetricKey)
    (h : (regGet reg k).isSome = true) :
    ∃ v, regGet (get_metrics env reg).registry k = some v
      ∧ renderLine k v ∈ render (get_metrics env reg).registry := by
  obtain ⟨ws, hws⟩ := get_metrics_registry_applyWrites env reg
  rw [hws]
  have hs := regGet_applyWrites_isSome reg ws k h
  obtain ⟨v, hv⟩ := Option.isSome_iff_exists.mp hs
  refine ⟨v, hv, ?_⟩
  have hmem := mem_of_regGet_eq_some _ _ _ hv
  simpa [render] using List.mem_map_of_mem (fun e => renderLine e.1 e.2) hmem

/-- C10, instantiated: the stale `index_docs_count` series of `regStale`,
whose index is absent from the nominal snapshot, survives a nominal pass. -/
theorem claim10_witness :
    (regGet regStale (indexDocsCountKey "stale")).isSome = true
    ∧ "stale" ∉ stats0.indexes.map Prod.fst
    ∧ (∃ v, regGet (get_metrics envBase regStale).registry
        (indexDocsCountKey "stale") = some v
      ∧ renderLine (indexDocsCountKey "stale") v
          ∈ render (get_metrics envBase regStale).registry) :=
  ⟨rfl, by decide,
    claim10_series_persist envBase regStale (indexDocsCountKey "stale") rfl⟩

end MetricsRoute
